import Mathlib

/-!
Shallow embedding of the DressUp e-commerce backend (Express/Mongoose
"boys clothing" store).  Controllers are modelled as pure functions over
explicit state: MongoDB collections become association lists, JS numbers
become `ℚ` (for prices and ratings, where division occurs) or `ℤ` (for
stock counts, which the code lets go negative), and fallible handlers
return `Except Err _` where `Err` carries the `ErrorResponse` status code.
Statements thrown by a JS null dereference are modelled as `Option.none`
or an `Err` with status 500, matching how `asyncHandler` forwards them.
-/

namespace DressUp

/-- Product ids (Mongo ObjectIds) are modelled as naturals. -/
abbrev Pid := Nat

/-- User ids. -/
abbrev Uid := Nat

/-- Review subdocument ids. -/
abbrev RevId := Nat

/-- Cart/wishlist item subdocument ids. -/
abbrev ItemId := Nat

/-- `ErrorResponse` from utils: a message plus an HTTP status code. -/
structure Err where
  message : String
  statusCode : Nat
deriving Repr, DecidableEq

/-- A review subdocument of the product schema (models/Product.js):
`user`, `name`, `rating`, `comment` (the `createdAt` timestamp is not
modelled; no claim mentions it). -/
structure Review where
  id : RevId
  user : Uid
  name : String
  rating : ℚ
  comment : String
deriving Repr, DecidableEq, Inhabited

/-- The fields of the product schema used by the controllers under
verification (models/Product.js).  `size` is the list of available sizes,
`stock` is `ℤ` because `updateStock` subtracts without a lower bound. -/
structure Product where
  name : String
  price : ℚ
  size : List String
  stock : ℤ
  reviews : List Review
  numOfReviews : Nat
  ratings : ℚ
deriving Repr, DecidableEq, Inhabited

/-- The products collection: an association list from id to document. -/
abbrev Products := List (Pid × Product)

/-- `Product.findById`. -/
def findById (ps : Products) (id : Pid) : Option Product :=
  (ps.find? fun pr => pr.1 == id).map (·.2)

/-- `product.save()`: write the (possibly modified) document back under
its id, leaving every other document unchanged. -/
def saveProduct (ps : Products) (id : Pid) (p : Product) : Products :=
  ps.map fun pr => if pr.1 = id then (id, p) else pr

/-- `updateStock` (order controller, also admin controller):
`findById`, then `product.stock -= quantity`, then save with
`validateBeforeSave: false`.  There is no null check: when the product
does not exist the JS dereference throws, modelled as `none`. -/
def updateStock (ps : Products) (id : Pid) (quantity : ℤ) : Option Products :=
  match findById ps id with
  | none => none
  | some product => some (saveProduct ps id { product with stock := product.stock - quantity })

/-- `restoreStock` (order controller): same shape with `+=`. -/
def restoreStock (ps : Products) (id : Pid) (quantity : ℤ) : Option Products :=
  match findById ps id with
  | none => none
  | some product => some (saveProduct ps id { product with stock := product.stock + quantity })

/-- One line item of the cart schema: product reference, quantity, size,
color and the unit price frozen at add time. -/
structure CartItem where
  id : ItemId
  product : Pid
  quantity : ℤ
  size : String
  color : String
  price : ℚ
deriving Repr, DecidableEq, Inhabited

/-- The cart document: items plus the denormalised `totalPrice`. -/
structure Cart where
  items : List CartItem
  totalPrice : ℚ
deriving Repr, DecidableEq, Inhabited

/-- The `reduce((total, item) => total + item.price * item.quantity, 0)`
expression every cart mutation uses to recompute `totalPrice`. -/
def cartTotal (items : List CartItem) : ℚ :=
  items.foldl (fun total item => total + item.price * (item.quantity : ℚ)) 0

/-- Replace the element at index `i` (the mutation of
`cart.items[itemIndex]` in JS). -/
def modifyIdx (l : List α) (i : Nat) (f : α → α) : List α :=
  l.mapIdx fun j a => if j = i then f a else a

/-- Request body of `POST /api/v1/cart`. -/
structure AddToCartReq where
  productId : Pid
  quantity : ℤ
  size : String
  color : String
deriving Repr, DecidableEq

/-- `addToCart` (cart controller): look the product up, check stock and
size, find or create the cart, merge with an existing line item with the
same product/size/color or push a new one, then recompute `totalPrice`.
`cart0 = none` models the user having no cart document yet; `freshId` is
the subdocument id Mongoose mints for a pushed item. -/
def addToCart (ps : Products) (cart0 : Option Cart) (freshId : ItemId)
    (req : AddToCartReq) : Except Err Cart :=
  match findById ps req.productId with
  | none => .error ⟨"Product not found", 404⟩
  | some product =>
    if product.stock < req.quantity then
      .error ⟨"Not enough stock", 400⟩
    else if ¬ req.size ∈ product.size then
      .error ⟨"Size not available for this product", 400⟩
    else
      let cart := cart0.getD ⟨[], 0⟩
      let items :=
        match cart.items.findIdx? fun item =>
            item.product == req.productId && item.size == req.size
              && item.color == req.color with
        | some i => modifyIdx cart.items i
            fun item => { item with quantity := item.quantity + req.quantity }
        | none => cart.items ++
            [⟨freshId, req.productId, req.quantity, req.size, req.color, product.price⟩]
      .ok { items := items, totalPrice := cartTotal items }

/-- `updateCartItem` (cart controller): find the cart and the line item,
re-check stock for the product, overwrite the quantity and recompute
`totalPrice`. -/
def updateCartItem (ps : Products) (cart0 : Option Cart) (itemId : ItemId)
    (quantity : ℤ) : Except Err Cart :=
  match cart0 with
  | none => .error ⟨"Cart not found", 404⟩
  | some cart =>
    match cart.items.findIdx? (fun item => item.id == itemId) with
    | none => .error ⟨"Item not found in cart", 404⟩
    | some i =>
      match findById ps ((cart.items.get? i).map (·.product) |>.getD 0) with
      | none => .error ⟨"Product not found", 404⟩
      | some product =>
        if product.stock < quantity then
          .error ⟨"Not enough stock", 400⟩
        else
          let items := modifyIdx cart.items i fun item => { item with quantity := quantity }
          .ok { items := items, totalPrice := cartTotal items }

/-- `removeFromCart` (cart controller): splice the line item out and
recompute `totalPrice`. -/
def removeFromCart (cart0 : Option Cart) (itemId : ItemId) : Except Err Cart :=
  match cart0 with
  | none => .error ⟨"Cart not found", 404⟩
  | some cart =>
    match cart.items.findIdx? (fun item => item.id == itemId) with
    | none => .error ⟨"Item not found in cart", 404⟩
    | some i =>
      let items := cart.items.eraseIdx i
      .ok { items := items, totalPrice := cartTotal items }

/-- `clearCart` (cart controller): `findOneAndUpdate` the cart to
`{ items: [], totalPrice: 0 }`. -/
def clearCart (cart0 : Option Cart) : Except Err Cart :=
  match cart0 with
  | none => .error ⟨"Cart not found", 404⟩
  | some _ => .ok { items := [], totalPrice := 0 }

/-- One saved-for-later entry of the wishlist schema. -/
structure WishItem where
  id : ItemId
  product : Pid
  size : String
  color : String
deriving Repr, DecidableEq

/-- The wishlist document. -/
structure Wishlist where
  items : List WishItem
deriving Repr, DecidableEq

/-- `moveToCart` (wishlist controller): find the wishlist entry, check
stock on its (populated) product, merge it into the cart exactly as
`addToCart` does, recompute the cart total, and splice the entry out of
the wishlist.  A populated product of `null` makes the JS `product.stock`
dereference throw, modelled as a 500. -/
def moveToCart (ps : Products) (wl0 : Option Wishlist) (cart0 : Option Cart)
    (itemId : ItemId) (quantity : ℤ) (freshId : ItemId) :
    Except Err (Cart × Wishlist) :=
  match wl0 with
  | none => .error ⟨"Wishlist not found", 404⟩
  | some wishlist =>
    match wishlist.items.findIdx? (fun item => item.id == itemId) with
    | none => .error ⟨"Item not found in wishlist", 404⟩
    | some i =>
      match wishlist.items.get? i with
      | none => .error ⟨"Item not found in wishlist", 404⟩
      | some wishlistItem =>
        match findById ps wishlistItem.product with
        | none => .error ⟨"TypeError", 500⟩
        | some product =>
          if product.stock < quantity then
            .error ⟨"Not enough stock", 400⟩
          else
            let cart := cart0.getD ⟨[], 0⟩
            let items :=
              match cart.items.findIdx? fun item =>
                  item.product == wishlistItem.product && item.size == wishlistItem.size
                    && item.color == wishlistItem.color with
              | some j => modifyIdx cart.items j
                  fun item => { item with quantity := item.quantity + quantity }
              | none => cart.items ++
                  [⟨freshId, wishlistItem.product, quantity, wishlistItem.size,
                    wishlistItem.color, product.price⟩]
            .ok ({ items := items, totalPrice := cartTotal items },
                 { items := wishlist.items.eraseIdx i })

/-- The denormalisation invariant of the cart collection: the stored
`totalPrice` is the sum over line items of unit price times quantity. -/
def cartInv (c : Cart) : Prop :=
  c.totalPrice = cartTotal c.items

/-! Order model (models/Order.js). -/

/-- One line item of the order schema. -/
structure OrderItem where
  product : Pid
  quantity : ℤ
  size : String
  color : String
  price : ℚ
deriving Repr, DecidableEq, Inhabited

/-- The `shippingInfo` subdocument. -/
structure ShippingInfo where
  address : String
  city : String
  state : String
  country : String
  pinCode : String
  phoneNo : String
deriving Repr, DecidableEq, Inhabited

/-- The `paymentInfo` subdocument (`method` is added by the controller). -/
structure PaymentInfo where
  id : String
  status : String
  method : String
deriving Repr, DecidableEq, Inhabited

/-- The order document.  `orderStatus` is a plain `String`, exactly as it
is stored: the schema declares an enum, but writes can bypass validation.
Timestamps are `ℤ` milliseconds.  Of the `trackingInfo` subdocument only
the fields the webhook matches and updates are modelled (`trackingNumber`
and `status`); its carrier, url, events and delivery-estimate fields are
carried nowhere a claim looks. -/
structure Order where
  id : Nat
  user : Uid
  orderItems : List OrderItem
  shippingInfo : ShippingInfo
  paymentInfo : PaymentInfo
  itemsPrice : ℚ
  taxPrice : ℚ
  shippingPrice : ℚ
  totalPrice : ℚ
  orderStatus : String
  deliveredAt : Option ℤ
  cancelledAt : Option ℤ
  trackingNumber : String
  trackingStatus : String
deriving Repr, DecidableEq, Inhabited

/-- The enum of the `orderStatus` schema path. -/
def orderStatusEnum : List String :=
  ["Processing", "Shipped", "Delivered", "Cancelled"]

/-- Mongoose document validation for an order as the schema declares it:
`orderStatus` must be in the enum and `taxPrice` at most 100.  It runs on
`Order.create` and on plain `save()`, and is skipped by
`save({ validateBeforeSave: false })` and by default on update queries. -/
def validateOrder (o : Order) : Bool :=
  o.orderStatus ∈ orderStatusEnum && o.taxPrice ≤ 100

/-! Users and addresses, as far as `createOrder` touches them. -/

/-- A saved address subdocument of the user schema. -/
structure Address where
  id : Nat
  street : String
  city : String
  state : String
  zip : String
  country : String
  phone : String
  addressType : String
  tag : String
  isDefault : Bool
deriving Repr, DecidableEq

/-- The slice of the user document `createOrder` reads. -/
structure User where
  id : Uid
  name : String
  email : String
  role : String
  addresses : List Address
deriving Repr, DecidableEq

/-- The database state threaded through `createOrder`. -/
structure St where
  users : List User
  carts : List (Uid × Cart)
  orders : List Order
  products : Products
deriving Repr, DecidableEq

/-- `User.findById`. -/
def findUser (users : List User) (uid : Uid) : Option User :=
  users.find? fun u => u.id == uid

/-- `user.save()` after mutating the addresses array. -/
def saveUser (users : List User) (u : User) : List User :=
  users.map fun v => if v.id = u.id then u else v

/-- `Cart.findOne({ user })`. -/
def findCart (carts : List (Uid × Cart)) (uid : Uid) : Option Cart :=
  (carts.find? fun pr => pr.1 == uid).map (·.2)

/-- `Cart.findOneAndUpdate({ user }, ...)`. -/
def saveCart (carts : List (Uid × Cart)) (uid : Uid) (c : Cart) : List (Uid × Cart) :=
  carts.map fun pr => if pr.1 = uid then (uid, c) else pr

/-- The `newAddress` object of the request body; absent string fields are
modelled as `""` (both are falsy to the JS checks). -/
structure NewAddress where
  street : String
  city : String
  state : String
  zip : String
  country : String
  phone : String
  saveAddress : Bool
  addressType : String
  tag : String
deriving Repr, DecidableEq

/-- Request body of `POST /api/v1/orders` (order controller).  Payment
fields are flattened; absent strings are `""`. -/
structure CreateOrderReq where
  paymentId : String
  paymentStatus : String
  paymentMethod : String
  useSavedAddress : Bool
  addressId : Nat
  newAddress : Option NewAddress
  trackingNumber : String
  trackingStatus : String
deriving Repr, DecidableEq

/-- Address-selection prelude of `createOrder`: saved address, explicit
new address (optionally pushed onto the profile, capped at 4), or the
default address.  Returns the resolved `shippingInfo` together with the
state, which changes only when a new address is saved.  The id of a
pushed address is minted as the current list length. -/
def resolveShipping (st : St) (uid : Uid) (req : CreateOrderReq) :
    Except Err (ShippingInfo × St) :=
  match findUser st.users uid with
  | none => .error ⟨"TypeError", 500⟩
  | some user =>
    if req.useSavedAddress then
      match user.addresses.find? (fun a => a.id == req.addressId) with
      | none => .error ⟨"Selected address not found", 404⟩
      | some a => .ok (⟨a.street, a.city, a.state, a.country, a.zip, a.phone⟩, st)
    else
      match req.newAddress with
      | some na =>
        if na.street = "" ∨ na.city = "" ∨ na.state = "" ∨ na.zip = ""
            ∨ na.country = "" ∨ na.phone = "" then
          .error ⟨"Please provide complete shipping information", 400⟩
        else
          let si : ShippingInfo := ⟨na.street, na.city, na.state, na.country, na.zip, na.phone⟩
          if na.saveAddress then
            if 4 ≤ user.addresses.length then
              .error ⟨"Maximum of 4 saved addresses reached", 400⟩
            else
              let addr : Address :=
                ⟨user.addresses.length, na.street, na.city, na.state, na.zip, na.country,
                  na.phone, if na.addressType = "" then "other" else na.addressType,
                  if na.tag = "" then "New Address" else na.tag, false⟩
              let user1 := { user with addresses := user.addresses ++ [addr] }
              .ok (si, { st with users := saveUser st.users user1 })
          else
            .ok (si, st)
      | none =>
        match user.addresses.find? (·.isDefault) with
        | none => .error ⟨"No shipping address provided and no default address set", 400⟩
        | some a => .ok (⟨a.street, a.city, a.state, a.country, a.zip, a.phone⟩, st)

/-- The validation loop of `createOrder` over the populated cart items:
a missing product is a 404, a quantity above stock is a 400, otherwise
the loop falls through. -/
def validateStockItems (ps : Products) : List CartItem → Option Err
  | [] => none
  | item :: rest =>
    match findById ps item.product with
    | none => some ⟨"Product not found", 404⟩
    | some product =>
      if product.stock < item.quantity then
        some ⟨"Not enough stock", 400⟩
      else
        validateStockItems ps rest

/-- Observable steps of the order-creation workflow, in the order the
controller performs them. -/
inductive Event where
  | cartRead
  | stockValidated
  | orderPersisted
  | stockDecremented (product : Pid)
  | cartCleared
  | emailSent
deriving Repr, DecidableEq

/-- Outcome of the `for ... await updateStock(...)` loop: either all
decrements applied, or the loop threw part-way with the earlier
decrements already persisted. -/
inductive StockLoopOut where
  | done (ps : Products) (evs : List Event)
  | failed (ps : Products) (evs : List Event)
deriving Repr, DecidableEq

/-- The stock-decrement loop of `createOrder`, one `updateStock` per
order item, recording an event per successful decrement. -/
def updateStockAll (ps : Products) : List OrderItem → StockLoopOut
  | [] => .done ps []
  | item :: rest =>
    match updateStock ps item.product item.quantity with
    | none => .failed ps []
    | some ps1 =>
      match updateStockAll ps1 rest with
      | .done ps2 evs => .done ps2 (Event.stockDecremented item.product :: evs)
      | .failed ps2 evs => .failed ps2 (Event.stockDecremented item.product :: evs)

/-- Result of a `createOrder` request: the state after the handler
returns (mutations before an error persist), the trace of observable
steps, and the response. -/
structure CreateOrderOut where
  st : St
  trace : List Event
  result : Except Err Order
deriving Repr

/-- `createOrder` (order controller, full variant): resolve the shipping
address, validate it and the payment info, read the cart (snapshot),
run the stock-validation loop, compute prices server-side, `Order.create`
(with schema validation), decrement stock per item, reset the cart to
empty, and send the confirmation email (whose failure is swallowed).
`oid` is the minted order id and `now` the clock. -/
def createOrder (st : St) (uid : Uid) (req : CreateOrderReq) (oid : Nat)
    (_now : ℤ) : CreateOrderOut :=
  match resolveShipping st uid req with
  | .error e => ⟨st, [], .error e⟩
  | .ok (si, st1) =>
    if si.address = "" ∨ si.city = "" ∨ si.state = "" ∨ si.country = ""
        ∨ si.pinCode = "" ∨ si.phoneNo = "" then
      ⟨st1, [], .error ⟨"Please provide complete shipping information", 400⟩⟩
    else if req.paymentId = "" ∨ req.paymentStatus = "" then
      ⟨st1, [], .error ⟨"Please provide complete payment information", 400⟩⟩
    else
      match findCart st1.carts uid with
      | none => ⟨st1, [.cartRead], .error ⟨"No items in cart", 400⟩⟩
      | some cart =>
        if cart.items = [] then
          ⟨st1, [.cartRead], .error ⟨"No items in cart", 400⟩⟩
        else
          match validateStockItems st1.products cart.items with
          | some e => ⟨st1, [.cartRead], .error e⟩
          | none =>
            let itemsPrice := cartTotal cart.items
            let taxPrice := itemsPrice * (1 / 10)
            let shippingPrice : ℚ := 599 / 100
            let totalPrice := itemsPrice + taxPrice + shippingPrice
            let orderItems := cart.items.map fun item =>
              OrderItem.mk item.product item.quantity item.size item.color item.price
            let order : Order :=
              { id := oid, user := uid, orderItems := orderItems, shippingInfo := si,
                paymentInfo := ⟨req.paymentId, req.paymentStatus,
                  if req.paymentMethod = "" then "card" else req.paymentMethod⟩,
                itemsPrice := itemsPrice, taxPrice := taxPrice,
                shippingPrice := shippingPrice, totalPrice := totalPrice,
                orderStatus := "Processing",
                deliveredAt := none, cancelledAt := none,
                trackingNumber := req.trackingNumber,
                trackingStatus := if req.trackingStatus = "" then "label_created"
                  else req.trackingStatus }
            if validateOrder order then
              let st2 := { st1 with orders := st1.orders ++ [order] }
              match updateStockAll st2.products orderItems with
              | .failed ps' evs =>
                ⟨{ st2 with products := ps' },
                  [.cartRead, .stockValidated, .orderPersisted] ++ evs,
                  .error ⟨"TypeError", 500⟩⟩
              | .done ps' evs =>
                let st3 : St :=
                  ⟨st2.users, saveCart st2.carts uid ⟨[], 0⟩, st2.orders, ps'⟩
                ⟨st3,
                  [.cartRead, .stockValidated, .orderPersisted] ++ evs
                    ++ [.cartCleared, .emailSent],
                  .ok order⟩
            else
              ⟨st1, [.cartRead, .stockValidated], .error ⟨"Order validation failed", 500⟩⟩

/-! Status-changing order operations. -/

/-- `updateOrderToDelivered` (order controller): set `orderStatus` to
`Delivered` and stamp `deliveredAt`, with no check of the current status,
then `save()` (which validates). -/
def updateOrderToDelivered (order : Order) (now : ℤ) : Except Err Order :=
  let order1 := { order with orderStatus := "Delivered", deliveredAt := some now }
  if validateOrder order1 then .ok order1
  else .error ⟨"ValidationError", 500⟩

/-- The `for ... await restoreStock(...)` loop of `cancelOrder`; a
missing product throws (`none`). -/
def restoreStockAll (ps : Products) : List OrderItem → Option Products
  | [] => some ps
  | item :: rest =>
    match restoreStock ps item.product item.quantity with
    | none => none
    | some ps1 => restoreStockAll ps1 rest

/-- `cancelOrder` (order controller): owner-or-admin check, refuse
`Delivered` and already-`Cancelled` orders, restore each item's stock,
set `Cancelled` and stamp `cancelledAt`, `save()` (which validates); the
cancellation email failure is swallowed. -/
def cancelOrder (ps : Products) (order : Order) (uid : Uid) (role : String)
    (now : ℤ) : Except Err (Products × Order) :=
  if order.user ≠ uid ∧ role ≠ "admin" then
    .error ⟨"Not authorized to cancel this order", 401⟩
  else if order.orderStatus = "Delivered" then
    .error ⟨"Cannot cancel delivered orders", 400⟩
  else if order.orderStatus = "Cancelled" then
    .error ⟨"Order is already cancelled", 400⟩
  else
    match restoreStockAll ps order.orderItems with
    | none => .error ⟨"TypeError", 500⟩
    | some ps1 =>
      let order1 := { order with orderStatus := "Cancelled", cancelledAt := some now }
      if validateOrder order1 then .ok (ps1, order1)
      else .error ⟨"ValidationError", 500⟩

/-- The `order.orderItems.forEach(async item => updateStock(...))` loop
of the admin `updateOrder`: the callback is async inside `forEach`, so a
throw from a missing product is an unhandled rejection that does not
abort the request: the item is simply skipped. -/
def updateStockForEach (ps : Products) (items : List OrderItem) : Products :=
  items.foldl
    (fun acc item =>
      match updateStock acc item.product item.quantity with
      | none => acc
      | some acc1 => acc1)
    ps

/-- Admin `updateOrder` (admin controller): refuse if already
`Delivered`; if the requested status is `Shipped`, decrement stock for
every item; copy `req.body.status` into `orderStatus` verbatim; stamp
`deliveredAt` when the requested status is `Delivered`; then
`save({ validateBeforeSave: false })`, which skips the schema enum. -/
def updateOrder (ps : Products) (order : Order) (status : String) (now : ℤ) :
    Except Err (Products × Order) :=
  if order.orderStatus = "Delivered" then
    .error ⟨"You have already delivered this order", 400⟩
  else
    let ps1 := if status = "Shipped" then updateStockForEach ps order.orderItems else ps
    let order1 := { order with
      orderStatus := status,
      deliveredAt := if status = "Delivered" then some now else order.deliveredAt }
    .ok (ps1, order1)

/-- `mapTrackingStatusToOrderStatus` (order controller): the carrier
status to order status dictionary, defaulting to `Processing`. -/
def mapTrackingStatusToOrderStatus (trackingStatus : String) : String :=
  if trackingStatus = "label_created" then "Processing"
  else if trackingStatus = "in_transit" then "Shipped"
  else if trackingStatus = "out_for_delivery" then "Shipped"
  else if trackingStatus = "delivered" then "Delivered"
  else if trackingStatus = "exception" then "Cancelled"
  else "Processing"

/-- `handleShippingWebhook` (order controller): check the shared secret,
then `findOneAndUpdate` the order matching the tracking number, setting
the tracking status and `orderStatus` to the mapped value with no check
of the current status (update queries run no validators by default). -/
def handleShippingWebhook (orders : List Order) (secretHeader envSecret : String)
    (trackingNumber status : String) : Except Err (List Order) :=
  if secretHeader ≠ envSecret then
    .error ⟨"Unauthorized", 401⟩
  else if orders.all (fun o => o.trackingNumber ≠ trackingNumber) then
    .error ⟨"Order not found", 404⟩
  else
    .ok (orders.map fun o =>
      if o.trackingNumber = trackingNumber then
        { o with
          trackingStatus := status
          orderStatus := mapTrackingStatusToOrderStatus status }
      else o)

/-! Review operations (product controller and admin controller). -/

/-- The `reduce((acc, item) => item.rating + acc, 0)` expression all four
review handlers use. -/
def ratingsSum (rs : List Review) : ℚ :=
  rs.foldl (fun acc r => r.rating + acc) 0

/-- `createProductReview` (product controller): find the product, require
a `Delivered` order of this user containing it, validate rating (JS
`!rating` also rejects 0) and comment, reject a second review by the same
user, push the review, set `numOfReviews` to the array length, and set
`ratings` to the average. -/
def createProductReview (ps : Products) (orders : List Order) (uid : Uid)
    (uname : String) (pid : Pid) (rating : ℚ) (comment : String)
    (freshRevId : RevId) : Except Err Product :=
  match findById ps pid with
  | none => .error ⟨"Product not found", 404⟩
  | some product =>
    match orders.find? fun o =>
        o.user == uid && o.orderStatus == "Delivered"
          && o.orderItems.any (fun item => item.product == pid) with
    | none => .error ⟨"You can only review products you have purchased and received.", 403⟩
    | some _ =>
      if rating = 0 ∨ rating < 1 ∨ 5 < rating then
        .error ⟨"Rating must be between 1 and 5", 400⟩
      else if comment = "" ∨ comment.length < 2 ∨ 250 < comment.length then
        .error ⟨"Comment must not exceed 250 characters", 400⟩
      else if (product.reviews.find? fun r => r.user == uid).isSome then
        .error ⟨"Product already reviewed", 400⟩
      else
        let reviews := product.reviews ++ [⟨freshRevId, uid, uname, rating, comment⟩]
        let product1 := { product with
          reviews := reviews
          numOfReviews := reviews.length
          ratings := ratingsSum reviews / (reviews.length : ℚ) }
        .ok product1

/-- `updateProductReview` (product controller): find the product and the
review, check owner-or-admin, validate the provided fields (JS truthiness:
a rating of 0 or a comment of `""` counts as absent), overwrite the
provided fields on the review in place, and recompute `ratings` as the
plain average; `numOfReviews` is not touched. -/
def updateProductReview (ps : Products) (pid : Pid) (revId : RevId)
    (rating : Option ℚ) (comment : Option String) (uid : Uid) (role : String) :
    Except Err Product :=
  match findById ps pid with
  | none => .error ⟨"Product not found", 404⟩
  | some product =>
    match product.reviews.find? (fun r => r.id == revId) with
    | none => .error ⟨"Review not found", 404⟩
    | some review =>
      if review.user ≠ uid ∧ role ≠ "admin" then
        .error ⟨"Not authorized to update this review", 403⟩
      else if (match rating with
          | some x => decide (x ≠ 0) && (decide (x < 1) || decide (5 < x))
          | none => false) then
        .error ⟨"Rating must be between 1 and 5", 400⟩
      else if (match comment with
          | some c => decide (c ≠ "") && decide (250 < c.length)
          | none => false) then
        .error ⟨"Comment must not exceed 250 characters", 400⟩
      else
        let reviews := product.reviews.map fun r =>
          if r.id = revId then
            { r with
              rating := match rating with
                | some x => if x ≠ 0 then x else r.rating
                | none => r.rating,
              comment := match comment with
                | some c => if c ≠ "" then c else r.comment
                | none => r.comment }
          else r
        let product1 := { product with
          reviews := reviews
          ratings := ratingsSum reviews / (reviews.length : ℚ) }
        .ok product1

/-- `deleteReview` (product controller): find the product and the review
index, check owner-or-admin, splice the review out, set `numOfReviews`
to the new length, and recompute `ratings` (0 when none remain). -/
def deleteReview (ps : Products) (pid : Pid) (revId : RevId) (uid : Uid)
    (role : String) : Except Err Product :=
  match findById ps pid with
  | none => .error ⟨"Product not found", 404⟩
  | some product =>
    match product.reviews.findIdx? (fun r => r.id == revId) with
    | none => .error ⟨"Review not found", 404⟩
    | some i =>
      match product.reviews.get? i with
      | none => .error ⟨"Review not found", 404⟩
      | some review =>
      if review.user ≠ uid ∧ role ≠ "admin" then
        .error ⟨"Not authorized to delete this review", 403⟩
      else
        let reviews := product.reviews.eraseIdx i
        let product1 := { product with
          reviews := reviews
          numOfReviews := reviews.length
          ratings := if 0 < reviews.length then
            ratingsSum reviews / (reviews.length : ℚ) else 0 }
        .ok product1

/-- `deleteReviewAsAdmin` (admin controller): like `deleteReview` but
with no ownership check. -/
def deleteReviewAsAdmin (ps : Products) (pid : Pid) (revId : RevId) :
    Except Err Product :=
  match findById ps pid with
  | none => .error ⟨"Product not found", 404⟩
  | some product =>
    match product.reviews.findIdx? (fun r => r.id == revId) with
    | none => .error ⟨"Review not found", 404⟩
    | some i =>
      let reviews := product.reviews.eraseIdx i
      let product1 := { product with
        reviews := reviews
        numOfReviews := reviews.length
        ratings := if 0 < reviews.length then
          ratingsSum reviews / (reviews.length : ℚ) else 0 }
      .ok product1

/-- The review-count/average invariant of the product collection. -/
def reviewInv (p : Product) : Prop :=
  p.numOfReviews = p.reviews.length
    ∧ p.ratings = (if p.reviews.length = 0 then 0
        else ratingsSum p.reviews / (p.reviews.length : ℚ))

/-! Product comparison endpoint. -/

/-- Hexadecimal digit test for ObjectId validation. -/
def isHexDigit (c : Char) : Bool :=
  c.isDigit || ('a' ≤ c && c ≤ 'f') || ('A' ≤ c && c ≤ 'F')

/-- `mongoose.Types.ObjectId.isValid`: a 24-character hex string or any
12-character string. -/
def isValidObjectId (s : String) : Bool :=
  (s.length == 24 && s.toList.all isHexDigit) || s.length == 12

/-- The value found at `req.body.productIds`: absent or otherwise falsy,
a truthy non-array, or an array of strings. -/
inductive ReqVal where
  | missing
  | nonArray
  | arr (ids : List String)
deriving Repr, DecidableEq

/-- Response of `compareProducts`, separated by status code. -/
inductive CompareResult where
  | err400 (message : String)
  | err404
  | comparison (found : List (String × Product))
deriving Repr, DecidableEq

/-- Output of `compareProducts` together with the ids it sent to
`Product.find` (empty when validation rejected the request before the
query). -/
structure CompareOut where
  queried : List String
  result : CompareResult
deriving Repr, DecidableEq

/-- `compareProducts` (product controller): reject a missing or
non-array `productIds`, fewer than 2 or more than 5 entries, or any
entry that is not a valid ObjectId, all with 400 and without querying;
otherwise query the products and 404 when fewer than 2 are found.  The
comparison-matrix formatting of the found documents is not modelled:
the claims concern only the validation gate. -/
def compareProducts (body : ReqVal) (ps : List (String × Product)) : CompareOut :=
  match body with
  | .missing => ⟨[], .err400 "Please provide an array of product IDs"⟩
  | .nonArray => ⟨[], .err400 "Please provide an array of product IDs"⟩
  | .arr productIds =>
    if productIds.length < 2 then
      ⟨[], .err400 "Please provide at least 2 product IDs to compare"⟩
    else if 5 < productIds.length then
      ⟨[], .err400 "Cannot compare more than 5 products at once"⟩
    else
      let invalidIds := productIds.filter fun id => ¬ isValidObjectId id
      if 0 < invalidIds.length then
        ⟨[], .err400 "Invalid product IDs"⟩
      else
        let found := ps.filter fun pr => productIds.contains pr.1
        if found.length < 2 then
          ⟨productIds, .err404⟩
        else
          ⟨productIds, .comparison found⟩

/-- The spec-side reading of a well-formed comparison request, following
the claim: an array of 2 to 5 valid ObjectIds. -/
def validCompareBody : ReqVal → Bool
  | .missing => false
  | .nonArray => false
  | .arr ids => decide (2 ≤ ids.length) && decide (ids.length ≤ 5) && ids.all isValidObjectId

/-- True exactly on the 400 responses of `compareProducts`. -/
def isErr400 : CompareResult → Bool
  | .err400 _ => true
  | _ => false

/-! Atomic database writes of the order-creation workflow, used to state
the claims about interleaved executions.  `runActions` executes a
schedule of such writes sequentially; a throw stops execution with all
earlier effects kept, exactly as the controller code (which has no
transaction, catch or compensation around these awaits) behaves. -/

/-- A database state shared by interleaving requests. -/
structure DbSt where
  products : Products
  orders : List Order
  carts : List (Uid × Cart)
  wishlists : List (Uid × Wishlist)
deriving Repr, DecidableEq

/-- One atomic write: `Order.create`, one `updateStock`, the admin
`deleteProduct` (`product.remove()`, whose hook also pulls the product
from every wishlist), or the cart reset of `createOrder`. -/
inductive DbAction where
  | persistOrder (o : Order)
  | decStock (product : Pid) (quantity : ℤ)
  | delProduct (product : Pid)
  | resetCart (uid : Uid)
deriving Repr, DecidableEq

/-- Apply one atomic write; `none` models a thrown error. -/
def runAction (st : DbSt) : DbAction → Option DbSt
  | .persistOrder o => some { st with orders := st.orders ++ [o] }
  | .decStock pid qty =>
    match updateStock st.products pid qty with
    | none => none
    | some ps1 => some { st with products := ps1 }
  | .delProduct pid =>
    match findById st.products pid with
    | none => none
    | some _ =>
      some { st with
        products := st.products.filter fun pr => pr.1 ≠ pid,
        wishlists := st.wishlists.map fun pr =>
          (pr.1, ⟨pr.2.items.filter fun item => item.product ≠ pid⟩) }
  | .resetCart uid => some { st with carts := saveCart st.carts uid ⟨[], 0⟩ }

/-- Run a schedule of atomic writes; a throw stops the run (`true` in
the second component) and keeps every effect already applied. -/
def runActions (st : DbSt) : List DbAction → DbSt × Bool
  | [] => (st, false)
  | a :: rest =>
    match runAction st a with
    | none => (st, true)
    | some st1 => runActions st1 rest

/-- The write-phase of `createOrder` as its list of atomic writes:
persist the order, decrement stock per item in order, reset the cart. -/
def createOrderWriteActions (uid : Uid) (o : Order) : List DbAction :=
  DbAction.persistOrder o
    :: (o.orderItems.map fun item => DbAction.decStock item.product item.quantity)
    ++ [DbAction.resetCart uid]

/-! Supporting lemmas. -/

/-- Every successful cart mutation stores `cartTotal` of the new items
as `totalPrice`, so the denormalisation invariant holds afterwards. -/
theorem addToCart_cartInv (ps : Products) (cart0 : Option Cart) (freshId : ItemId)
    (req : AddToCartReq) (c : Cart) (h : addToCart ps cart0 freshId req = .ok c) :
    cartInv c := by
  unfold addToCart at h
  repeat' split at h
  all_goals first
    | exact Except.noConfusion h
    | (cases h; rfl)

theorem updateCartItem_cartInv (ps : Products) (cart0 : Option Cart) (itemId : ItemId)
    (quantity : ℤ) (c : Cart) (h : updateCartItem ps cart0 itemId quantity = .ok c) :
    cartInv c := by
  unfold updateCartItem at h
  repeat' split at h
  all_goals first
    | exact Except.noConfusion h
    | (cases h; rfl)

theorem removeFromCart_cartInv (cart0 : Option Cart) (itemId : ItemId)
    (c : Cart) (h : removeFromCart cart0 itemId = .ok c) :
    cartInv c := by
  unfold removeFromCart at h
  repeat' split at h
  all_goals first
    | exact Except.noConfusion h
    | (cases h; rfl)

theorem clearCart_cartInv (cart0 : Option Cart) (c : Cart)
    (h : clearCart cart0 = .ok c) : cartInv c := by
  unfold clearCart at h
  split at h
  · exact Except.noConfusion h
  · cases h; rfl

theorem moveToCart_cartInv (ps : Products) (wl0 : Option Wishlist) (cart0 : Option Cart)
    (itemId : ItemId) (quantity : ℤ) (freshId : ItemId) (c : Cart) (w : Wishlist)
    (h : moveToCart ps wl0 cart0 itemId quantity freshId = .ok (c, w)) :
    cartInv c := by
  unfold moveToCart at h
  repeat' split at h
  all_goals first
    | exact Except.noConfusion h
    | (simp only [Except.ok.injEq, Prod.mk.injEq] at h
       obtain ⟨h1, h2⟩ := h
       subst h1
       rfl)

/-- Successful `createProductReview` re-establishes the review
invariant: the pushed review makes the array non-empty and both
`numOfReviews` and `ratings` are recomputed from it. -/
theorem createProductReview_reviewInv (ps : Products) (orders : List Order)
    (uid : Uid) (uname : String) (pid : Pid) (rating : ℚ) (comment : String)
    (freshRevId : RevId) (p' : Product)
    (h : createProductReview ps orders uid uname pid rating comment freshRevId = .ok p') :
    reviewInv p' := by
  unfold createProductReview at h
  repeat' split at h
  all_goals first
    | exact Except.noConfusion h
    | (cases h
       refine ⟨rfl, ?_⟩
       simp [List.length_append])

/-- Successful `updateProductReview` preserves the review invariant: the
review array keeps its length, `numOfReviews` is untouched, and
`ratings` is recomputed over the (non-empty) array. -/
theorem updateProductReview_reviewInv (ps : Products) (pid : Pid) (revId : RevId)
    (rating : Option ℚ) (comment : Option String) (uid : Uid) (role : String)
    (p p' : Product) (hfind : findById ps pid = some p) (hpre : reviewInv p)
    (h : updateProductReview ps pid revId rating comment uid role = .ok p') :
    reviewInv p' := by
  unfold updateProductReview at h
  rw [hfind] at h
  dsimp only at h
  cases hfind2 : p.reviews.find? (fun r => r.id == revId) with
  | none => rw [hfind2] at h; exact Except.noConfusion h
  | some review =>
    rw [hfind2] at h
    dsimp only at h
    have hmem : review ∈ p.reviews := List.mem_of_find?_eq_some hfind2
    have hne : p.reviews ≠ [] := List.ne_nil_of_mem hmem
    repeat' split at h
    all_goals first
      | exact Except.noConfusion h
      | (cases h
         refine ⟨?_, ?_⟩
         · simpa using hpre.1
         · rw [if_neg]
           simpa [List.length_eq_zero] using hne)

/-- A zero-length case split shared by the deletion lemmas: the code
writes `if 0 < n then a else 0`, the invariant reads
`if n = 0 then 0 else a`. -/
theorem ite_pos_len (n : ℕ) (a : ℚ) :
    (if 0 < n then a else 0) = if n = 0 then 0 else a := by
  cases n <;> simp

/-- Successful `deleteReview` re-establishes the review invariant. -/
theorem deleteReview_reviewInv (ps : Products) (pid : Pid) (revId : RevId)
    (uid : Uid) (role : String) (p' : Product)
    (h : deleteReview ps pid revId uid role = .ok p') : reviewInv p' := by
  unfold deleteReview at h
  repeat' split at h
  all_goals first
    | exact Except.noConfusion h
    | (cases h
       exact ⟨rfl, ite_pos_len _ _⟩)

/-- Successful `deleteReviewAsAdmin` re-establishes the review
invariant. -/
theorem deleteReviewAsAdmin_reviewInv (ps : Products) (pid : Pid) (revId : RevId)
    (p' : Product) (h : deleteReviewAsAdmin ps pid revId = .ok p') : reviewInv p' := by
  unfold deleteReviewAsAdmin at h
  repeat' split at h
  all_goals first
    | exact Except.noConfusion h
    | (cases h
       exact ⟨rfl, ite_pos_len _ _⟩)

/-- Presence of an id is the `any` of the key test. -/
theorem findById_isSome_any (ps : Products) (id : Pid) :
    (findById ps id).isSome = ps.any (fun pr => pr.1 == id) := by
  unfold findById
  induction ps with
  | nil => rfl
  | cons hd tl ih =>
    cases h : (hd.1 == id) with
    | true => simp [List.find?, h]
    | false => simp [List.find?, h, ← ih]

/-- Saving a product does not change which keys pass the id test. -/
theorem saveProduct_any (ps : Products) (id : Pid) (p : Product) (id' : Pid) :
    (saveProduct ps id p).any (fun pr => pr.1 == id')
      = ps.any (fun pr => pr.1 == id') := by
  unfold saveProduct
  induction ps with
  | nil => rfl
  | cons hd tl ih =>
    simp only [List.map_cons, List.any_cons, ih]
    congr 1
    by_cases h : hd.1 = id <;> simp [h]

/-- Saving a product does not change which ids are present. -/
theorem findById_isSome_saveProduct (ps : Products) (id : Pid) (p : Product)
    (id' : Pid) :
    (findById (saveProduct ps id p) id').isSome = (findById ps id').isSome := by
  rw [findById_isSome_any, findById_isSome_any, saveProduct_any]

/-- A passed stock-validation loop means every cart item's product is
present. -/
theorem validateStockItems_none_isSome (ps : Products) (items : List CartItem)
    (h : validateStockItems ps items = none) :
    ∀ item ∈ items, (findById ps item.product).isSome = true := by
  induction items with
  | nil => intro item hm; cases hm
  | cons hd tl ih =>
    intro item hm
    unfold validateStockItems at h
    cases hfind : findById ps hd.product with
    | none => rw [hfind] at h; exact Option.noConfusion h
    | some product =>
      rw [hfind] at h
      dsimp only at h
      split at h
      · exact Option.noConfusion h
      · cases hm with
        | head => simp [hfind]
        | tail _ hm2 => exact ih h item hm2

/-- When every ordered product is present, the decrement loop completes
and emits one `stockDecremented` event per item, in list order. -/
theorem updateStockAll_done (ps : Products) (items : List OrderItem)
    (h : ∀ item ∈ items, (findById ps item.product).isSome = true) :
    ∃ ps', updateStockAll ps items
      = .done ps' (items.map fun item => Event.stockDecremented item.product) := by
  induction items generalizing ps with
  | nil => exact ⟨ps, rfl⟩
  | cons hd tl ih =>
    have hhd : (findById ps hd.product).isSome = true := h hd (List.mem_cons_self _ _)
    obtain ⟨q, hq⟩ := Option.isSome_iff_exists.mp hhd
    have htl : ∀ item ∈ tl,
        (findById (saveProduct ps hd.product
          { q with stock := q.stock - hd.quantity }) item.product).isSome = true := by
      intro item hm
      rw [findById_isSome_saveProduct]
      exact h item (List.mem_cons_of_mem _ hm)
    obtain ⟨ps', hps'⟩ := ih _ htl
    refine ⟨ps', ?_⟩
    unfold updateStockAll updateStock
    rw [hq]
    simp only [List.map_cons]
    rw [hps']

/-- When every product referenced by the cart exists and some item's
quantity exceeds its product's stock, the validation loop reports a 400
error. -/
theorem validateStockItems_overstock (ps : Products) (items : List CartItem)
    (hall : ∀ item ∈ items, (findById ps item.product).isSome = true)
    (hover : ∃ item ∈ items, ∃ p, findById ps item.product = some p
      ∧ p.stock < item.quantity) :
    ∃ e, validateStockItems ps items = some e ∧ e.statusCode = 400 := by
  induction items with
  | nil => obtain ⟨item, hm, _⟩ := hover; cases hm
  | cons hd tl ih =>
    have hhd := hall hd (List.mem_cons_self _ _)
    obtain ⟨q, hq⟩ := Option.isSome_iff_exists.mp hhd
    unfold validateStockItems
    rw [hq]
    dsimp only
    by_cases hlt : q.stock < hd.quantity
    · rw [if_pos hlt]
      exact ⟨_, rfl, rfl⟩
    · rw [if_neg hlt]
      apply ih
      · intro item hm; exact hall item (List.mem_cons_of_mem _ hm)
      · obtain ⟨item, hm, p, hp, hplt⟩ := hover
        cases hm with
        | head =>
          rw [hq] at hp
          cases hp
          exact absurd hplt hlt
        | tail _ hm2 => exact ⟨item, hm2, p, hp, hplt⟩

/-- The address-resolution prelude touches only the users collection. -/
theorem resolveShipping_ok_frame (st : St) (uid : Uid) (req : CreateOrderReq)
    (si : ShippingInfo) (st1 : St)
    (h : resolveShipping st uid req = .ok (si, st1)) :
    st1.orders = st.orders ∧ st1.products = st.products ∧ st1.carts = st.carts := by
  simp only [resolveShipping] at h
  repeat' split at h
  all_goals first
    | exact Except.noConfusion h
    | (simp only [Except.ok.injEq, Prod.mk.injEq] at h
       obtain ⟨h1, h2⟩ := h
       subst h2
       exact ⟨rfl, rfl, rfl⟩)

/-- Characterisation of a successful `cancelOrder`: it requires that the
order was neither delivered nor already cancelled, and the returned order
is the input with only `orderStatus` and `cancelledAt` overwritten. -/
theorem cancelOrder_ok_char (ps : Products) (o : Order) (uid : Uid)
    (role : String) (now : ℤ) (ps' : Products) (o' : Order)
    (h : cancelOrder ps o uid role now = .ok (ps', o')) :
    o.orderStatus ≠ "Delivered" ∧ o.orderStatus ≠ "Cancelled"
      ∧ o' = { o with orderStatus := "Cancelled", cancelledAt := some now } := by
  simp only [cancelOrder] at h
  repeat' split at h
  all_goals first
    | exact Except.noConfusion h
    | (simp only [Except.ok.injEq, Prod.mk.injEq] at h
       obtain ⟨h1, h2⟩ := h
       subst h2
       refine ⟨by assumption, by assumption, rfl⟩)

/-- Characterisation of a successful `updateOrderToDelivered`: no
precondition on the current status; the returned order is the input with
only `orderStatus` and `deliveredAt` overwritten. -/
theorem updateOrderToDelivered_ok_char (o : Order) (now : ℤ) (o' : Order)
    (h : updateOrderToDelivered o now = .ok o') :
    o' = { o with orderStatus := "Delivered", deliveredAt := some now } := by
  simp only [updateOrderToDelivered] at h
  split at h
  · cases h; rfl
  · exact Except.noConfusion h

/-- Characterisation of a successful admin `updateOrder`: the order was
not delivered, and the requested status string is copied verbatim. -/
theorem updateOrder_ok_char (ps : Products) (o : Order) (status : String)
    (now : ℤ) (ps' : Products) (o' : Order)
    (h : updateOrder ps o status now = .ok (ps', o')) :
    o.orderStatus ≠ "Delivered"
      ∧ o' = { o with orderStatus := status, deliveredAt := if status = "Delivered" then some now else o.deliveredAt } := by
  simp only [updateOrder] at h
  split at h
  · exact Except.noConfusion h
  · simp only [Except.ok.injEq, Prod.mk.injEq] at h
    obtain ⟨h1, h2⟩ := h
    subst h2
    exact ⟨by assumption, rfl⟩

/-- A successful `createOrder` always returns an order whose status is
the schema default `Processing`. -/
theorem createOrder_ok_processing (st : St) (uid : Uid) (req : CreateOrderReq)
    (oid : Nat) (now : ℤ) (o : Order)
    (h : (createOrder st uid req oid now).result = .ok o) :
    o.orderStatus = "Processing" := by
  simp only [createOrder] at h
  repeat' split at h
  all_goals first
    | exact Except.noConfusion h
    | (cases h; rfl)

/-- The carrier-status dictionary only produces the four enum values. -/
theorem mapTrackingStatus_mem_enum (ts : String) :
    mapTrackingStatusToOrderStatus ts ∈ orderStatusEnum := by
  unfold mapTrackingStatusToOrderStatus orderStatusEnum
  repeat' split
  all_goals simp

/-- Every order coming out of the webhook either is an untouched input
order or carries the mapped carrier status. -/
theorem handleShippingWebhook_ok_char (orders : List Order)
    (secretHeader envSecret trackingNumber status : String) (orders' : List Order)
    (h : handleShippingWebhook orders secretHeader envSecret trackingNumber status
      = .ok orders') :
    ∀ o' ∈ orders', o' ∈ orders
      ∨ o'.orderStatus = mapTrackingStatusToOrderStatus status := by
  unfold handleShippingWebhook at h
  repeat' split at h
  all_goals try exact Except.noConfusion h
  cases h
  intro o' hm
  obtain ⟨o, hmo, ho⟩ := List.mem_map.mp hm
  by_cases htn : o.trackingNumber = trackingNumber
  · right
    rw [if_pos htn] at ho
    rw [← ho]
  · left
    rw [if_neg htn] at ho
    rw [← ho]
    exact hmo

/-! Concrete fixtures used by the witnesses. -/

/-- A product with one size and stock 5. -/
def pTee : Product :=
  { name := "Tee", price := 10, size := ["M", "L"], stock := 5,
    reviews := [], numOfReviews := 0, ratings := 0 }

/-- A one-product catalogue. -/
def psFix : Products := [(1, pTee)]

/-- Add two size-M tees. -/
def addReqFix : AddToCartReq := { productId := 1, quantity := 2, size := "M", color := "blue" }

/-- The cart produced by the witness run of `addToCart`. -/
def cartAfterAdd : Cart :=
  match addToCart psFix none 0 addReqFix with
  | .ok c => c
  | .error _ => ⟨[], 0⟩

/-- C8: After every cart-mutating operation (addToCart, updateCartItem,
removeFromCart, clearCart, and the wishlist moveToCart), the cart's
`totalPrice` equals the sum over its items of price times quantity. -/
theorem c8_cart_totalPrice_invariant :
    (∀ ps cart0 freshId req c,
        addToCart ps cart0 freshId req = .ok c → cartInv c)
  ∧ (∀ ps cart0 itemId quantity c,
        updateCartItem ps cart0 itemId quantity = .ok c → cartInv c)
  ∧ (∀ cart0 itemId c,
        removeFromCart cart0 itemId = .ok c → cartInv c)
  ∧ (∀ cart0 c, clearCart cart0 = .ok c → cartInv c)
  ∧ (∀ ps wl0 cart0 itemId quantity freshId c w,
        moveToCart ps wl0 cart0 itemId quantity freshId = .ok (c, w) → cartInv c) :=
  ⟨addToCart_cartInv, updateCartItem_cartInv, removeFromCart_cartInv,
    clearCart_cartInv, moveToCart_cartInv⟩

/-- Witness for C8: a concrete successful `addToCart` run on which the
invariant theorem applies. -/
theorem c8_cart_totalPrice_invariant_witness :
    addToCart psFix none 0 addReqFix = .ok cartAfterAdd ∧ cartInv cartAfterAdd :=
  ⟨rfl, c8_cart_totalPrice_invariant.1 psFix none 0 addReqFix cartAfterAdd rfl⟩

/-- A review fixture. -/
def rev1 : Review := ⟨11, 7, "Alice", 4, "nice shirt"⟩

/-- A second review fixture. -/
def rev2 : Review := ⟨12, 8, "Bob", 2, "shrank in the wash"⟩

/-- A product carrying both reviews, with the invariant holding. -/
def pReviewed : Product :=
  { name := "Polo", price := 15, size := ["M"], stock := 3,
    reviews := [rev1, rev2], numOfReviews := 2, ratings := 3 }

/-- A catalogue with the reviewed product. -/
def psRev : Products := [(1, pReviewed)]

/-- The product produced by the witness run of `deleteReviewAsAdmin`. -/
def pAfterAdminDelete : Product :=
  match deleteReviewAsAdmin psRev 1 11 with
  | .ok p => p
  | .error _ => default

/-- C9: After every review operation on a product (createProductReview,
updateProductReview, deleteReview, deleteReviewAsAdmin), the product's
`numOfReviews` equals the length of its reviews array and its `ratings`
field equals the arithmetic mean of the remaining reviews' ratings
(0 when there are no reviews).  For `updateProductReview`, which touches
neither the array length nor `numOfReviews`, this is preservation of the
invariant; the other three re-establish it outright. -/
theorem c9_review_aggregate_invariant :
    (∀ ps orders uid uname pid rating comment freshRevId p',
        createProductReview ps orders uid uname pid rating comment freshRevId = .ok p' →
        reviewInv p')
  ∧ (∀ ps pid revId rating comment uid role p p',
        findById ps pid = some p → reviewInv p →
        updateProductReview ps pid revId rating comment uid role = .ok p' →
        reviewInv p')
  ∧ (∀ ps pid revId uid role p',
        deleteReview ps pid revId uid role = .ok p' → reviewInv p')
  ∧ (∀ ps pid revId p',
        deleteReviewAsAdmin ps pid revId = .ok p' → reviewInv p') :=
  ⟨createProductReview_reviewInv, updateProductReview_reviewInv,
    deleteReview_reviewInv, deleteReviewAsAdmin_reviewInv⟩

/-- Witness for C9: a concrete successful admin review deletion on which
the invariant theorem applies. -/
theorem c9_review_aggregate_invariant_witness :
    deleteReviewAsAdmin psRev 1 11 = .ok pAfterAdminDelete ∧ reviewInv pAfterAdminDelete :=
  ⟨rfl, c9_review_aggregate_invariant.2.2.2 psRev 1 11 pAfterAdminDelete rfl⟩

/-! Order fixtures. -/

/-- A complete shipping address fixture. -/
def siFix : ShippingInfo := ⟨"12 Oak St", "Kochi", "KL", "India", "682001", "9999999999"⟩

/-- A payment fixture. -/
def payFix : PaymentInfo := ⟨"pay_1", "succeeded", "card"⟩

/-- An order line fixture over product 1. -/
def itemFix : OrderItem := ⟨1, 2, "M", "blue", 10⟩

/-- A freshly processing order owned by user 7. -/
def oProcessing : Order :=
  { id := 1, user := 7, orderItems := [itemFix], shippingInfo := siFix,
    paymentInfo := payFix, itemsPrice := 20, taxPrice := 2,
    shippingPrice := 599 / 100, totalPrice := 20 + 2 + 599 / 100,
    orderStatus := "Processing", deliveredAt := none, cancelledAt := none,
    trackingNumber := "TN1", trackingStatus := "label_created" }

/-- The same order after a cancellation. -/
def oCancelled : Order :=
  { oProcessing with orderStatus := "Cancelled", cancelledAt := some 3 }

/-- Result of marking the cancelled order delivered. -/
def oC4After : Order :=
  match updateOrderToDelivered oCancelled 9 with
  | .ok o => o
  | .error _ => default

/-- Counterexample for C4: `updateOrderToDelivered` flips a `Cancelled`
order to `Delivered`, so `Cancelled` is not terminal. -/
theorem c4_cancelled_to_delivered_counterexample :
    oCancelled.orderStatus = "Cancelled"
  ∧ updateOrderToDelivered oCancelled 9 = .ok oC4After
  ∧ oC4After.orderStatus = "Delivered" :=
  ⟨rfl, rfl, rfl⟩

/-- C4 (amended): a newly created order starts in `Processing`;
`cancelOrder` succeeds only on orders that are neither `Delivered` nor
`Cancelled`; the admin `updateOrder` never modifies a `Delivered` order;
but `updateOrderToDelivered` marks any existing order `Delivered`
regardless of its current status (including `Cancelled` ones), so
`Cancelled` is terminal only under the first two operations. -/
theorem c4_order_lifecycle_amended :
    (∀ st uid req oid now o,
        (createOrder st uid req oid now).result = .ok o → o.orderStatus = "Processing")
  ∧ (∀ ps o uid role now ps' o', cancelOrder ps o uid role now = .ok (ps', o') →
        o.orderStatus ≠ "Delivered" ∧ o.orderStatus ≠ "Cancelled"
          ∧ o'.orderStatus = "Cancelled")
  ∧ (∀ ps o status now ps' o', updateOrder ps o status now = .ok (ps', o') →
        o.orderStatus ≠ "Delivered")
  ∧ (∀ o now o', updateOrderToDelivered o now = .ok o' →
        o'.orderStatus = "Delivered") := by
  refine ⟨createOrder_ok_processing, ?_, ?_, ?_⟩
  · intro ps o uid role now ps' o' h
    obtain ⟨h1, h2, h3⟩ := cancelOrder_ok_char ps o uid role now ps' o' h
    exact ⟨h1, h2, by rw [h3]⟩
  · intro ps o status now ps' o' h
    exact (updateOrder_ok_char ps o status now ps' o' h).1
  · intro o now o' h
    rw [updateOrderToDelivered_ok_char o now o' h]

/-- The state of the catalogue after the witness cancellation. -/
def psC4After : Products :=
  match cancelOrder psFix oProcessing 7 "user" 5 with
  | .ok (ps, _) => ps
  | .error _ => []

/-- The order after the witness cancellation. -/
def oC4Cancelled : Order :=
  match cancelOrder psFix oProcessing 7 "user" 5 with
  | .ok (_, o) => o
  | .error _ => default

/-- Witness for the amended C4: a concrete successful cancellation. -/
theorem c4_order_lifecycle_amended_witness :
    cancelOrder psFix oProcessing 7 "user" 5 = .ok (psC4After, oC4Cancelled)
  ∧ oProcessing.orderStatus ≠ "Delivered" ∧ oProcessing.orderStatus ≠ "Cancelled"
  ∧ oC4Cancelled.orderStatus = "Cancelled" := by
  have h := c4_order_lifecycle_amended.2.1 psFix oProcessing 7 "user" 5
    psC4After oC4Cancelled rfl
  exact ⟨rfl, h.1, h.2.1, h.2.2⟩

/-- The order after the admin writes a status outside the enum. -/
def oC5After : Order :=
  match updateOrder psFix oProcessing "Refunded" 9 with
  | .ok (_, o) => o
  | .error _ => default

/-- Counterexample for C5: the admin `updateOrder` saves with
`validateBeforeSave: false`, so a status outside the schema enum is
stored verbatim. -/
theorem c5_status_enum_counterexample :
    updateOrder psFix oProcessing "Refunded" 9 = .ok (psFix, oC5After)
  ∧ oC5After.orderStatus = "Refunded"
  ∧ oC5After.orderStatus ∉ orderStatusEnum :=
  ⟨rfl, rfl, by decide⟩

/-- C5 (amended): an order created without an explicit status has status
`Processing`, and `cancelOrder`, `updateOrderToDelivered` and the
shipping webhook only ever write one of the four enum values; but the
admin `updateOrder` copies the request's status verbatim without
validation, so a stored `orderStatus` is not restricted to the enum. -/
theorem c5_order_status_values_amended :
    (∀ st uid req oid now o,
        (createOrder st uid req oid now).result = .ok o →
        o.orderStatus = "Processing" ∧ o.orderStatus ∈ orderStatusEnum)
  ∧ (∀ ps o uid role now ps' o', cancelOrder ps o uid role now = .ok (ps', o') →
        o'.orderStatus ∈ orderStatusEnum)
  ∧ (∀ o now o', updateOrderToDelivered o now = .ok o' →
        o'.orderStatus ∈ orderStatusEnum)
  ∧ (∀ orders sh env tn status orders',
        handleShippingWebhook orders sh env tn status = .ok orders' →
        ∀ o' ∈ orders', o' ∈ orders ∨ o'.orderStatus ∈ orderStatusEnum)
  ∧ (∀ ps o status now ps' o', updateOrder ps o status now = .ok (ps', o') →
        o'.orderStatus = status) := by
  refine ⟨?_, ?_, ?_, ?_, ?_⟩
  · intro st uid req oid now o h
    have hp := createOrder_ok_processing st uid req oid now o h
    exact ⟨hp, by rw [hp]; decide⟩
  · intro ps o uid role now ps' o' h
    rw [(cancelOrder_ok_char ps o uid role now ps' o' h).2.2]
    show "Cancelled" ∈ orderStatusEnum
    decide
  · intro o now o' h
    rw [updateOrderToDelivered_ok_char o now o' h]
    show "Delivered" ∈ orderStatusEnum
    decide
  · intro orders sh env tn status orders' h o' hm
    cases handleShippingWebhook_ok_char orders sh env tn status orders' h o' hm with
    | inl hmem => exact Or.inl hmem
    | inr hst => exact Or.inr (hst ▸ mapTrackingStatus_mem_enum status)
  · intro ps o status now ps' o' h
    rw [(updateOrder_ok_char ps o status now ps' o' h).2]

/-- Witness for the amended C5: the verbatim-copy clause at the concrete
bogus status. -/
theorem c5_order_status_values_amended_witness :
    updateOrder psFix oProcessing "Refunded" 9 = .ok (psFix, oC5After)
  ∧ oC5After.orderStatus = "Refunded" :=
  ⟨rfl, c5_order_status_values_amended.2.2.2.2 psFix oProcessing "Refunded" 9
    psFix oC5After rfl⟩

/-- C6: an order is immutable once created apart from its status
lifecycle: `cancelOrder` and `updateOrderToDelivered` change only
`orderStatus` and the `cancelledAt`/`deliveredAt` timestamps, leaving
`user`, `orderItems`, `shippingInfo`, `paymentInfo`, `itemsPrice`,
`taxPrice`, `shippingPrice` and `totalPrice` unchanged. -/
theorem c6_order_frame :
    (∀ ps o uid role now ps' o', cancelOrder ps o uid role now = .ok (ps', o') →
        o'.user = o.user ∧ o'.orderItems = o.orderItems
          ∧ o'.shippingInfo = o.shippingInfo ∧ o'.paymentInfo = o.paymentInfo
          ∧ o'.itemsPrice = o.itemsPrice ∧ o'.taxPrice = o.taxPrice
          ∧ o'.shippingPrice = o.shippingPrice ∧ o'.totalPrice = o.totalPrice
          ∧ o'.orderStatus = "Cancelled" ∧ o'.cancelledAt = some now
          ∧ o'.deliveredAt = o.deliveredAt)
  ∧ (∀ o now o', updateOrderToDelivered o now = .ok o' →
        o'.user = o.user ∧ o'.orderItems = o.orderItems
          ∧ o'.shippingInfo = o.shippingInfo ∧ o'.paymentInfo = o.paymentInfo
          ∧ o'.itemsPrice = o.itemsPrice ∧ o'.taxPrice = o.taxPrice
          ∧ o'.shippingPrice = o.shippingPrice ∧ o'.totalPrice = o.totalPrice
          ∧ o'.orderStatus = "Delivered" ∧ o'.deliveredAt = some now
          ∧ o'.cancelledAt = o.cancelledAt) := by
  constructor
  · intro ps o uid role now ps' o' h
    have h3 := (cancelOrder_ok_char ps o uid role now ps' o' h).2.2
    subst h3
    exact ⟨rfl, rfl, rfl, rfl, rfl, rfl, rfl, rfl, rfl, rfl, rfl⟩
  · intro o now o' h
    have h3 := updateOrderToDelivered_ok_char o now o' h
    subst h3
    exact ⟨rfl, rfl, rfl, rfl, rfl, rfl, rfl, rfl, rfl, rfl, rfl⟩

/-- Witness for C6: the concrete cancellation changes neither the items
nor the totals. -/
theorem c6_order_frame_witness :
    cancelOrder psFix oProcessing 7 "user" 5 = .ok (psC4After, oC4Cancelled)
  ∧ oC4Cancelled.orderItems = oProcessing.orderItems
  ∧ oC4Cancelled.totalPrice = oProcessing.totalPrice := by
  have h := c6_order_frame.1 psFix oProcessing 7 "user" 5 psC4After oC4Cancelled rfl
  exact ⟨rfl, h.2.1, h.2.2.2.2.2.2.2.1⟩

/-- C1: for an authenticated user with a non-empty cart and otherwise
valid request (resolved shipping address, complete payment info, every
item in stock, tax within the schema bound), `createOrder` performs its
steps in exactly this order: cart read, stock validation, order
persistence, one stock decrement per ordered item (in cart order), cart
clear, confirmation email; and the request succeeds. -/
theorem c1_createOrder_step_order (st : St) (uid : Uid) (req : CreateOrderReq)
    (oid : Nat) (now : ℤ) (si : ShippingInfo) (st1 : St) (cart : Cart)
    (hship : resolveShipping st uid req = .ok (si, st1))
    (hsi : ¬(si.address = "" ∨ si.city = "" ∨ si.state = "" ∨ si.country = ""
      ∨ si.pinCode = "" ∨ si.phoneNo = ""))
    (hpay : ¬(req.paymentId = "" ∨ req.paymentStatus = ""))
    (hcart : findCart st1.carts uid = some cart)
    (hne : cart.items ≠ [])
    (hstock : validateStockItems st1.products cart.items = none)
    (htax : cartTotal cart.items * (1 / 10) ≤ 100) :
    (createOrder st uid req oid now).trace
      = [Event.cartRead, Event.stockValidated, Event.orderPersisted]
        ++ cart.items.map (fun item => Event.stockDecremented item.product)
        ++ [Event.cartCleared, Event.emailSent]
    ∧ ∃ o, (createOrder st uid req oid now).result = .ok o := by
  have hitems : ∀ item ∈ cart.items.map (fun item =>
      OrderItem.mk item.product item.quantity item.size item.color item.price),
      (findById st1.products item.product).isSome = true := by
    intro item hm
    obtain ⟨ci, hci, hri⟩ := List.mem_map.mp hm
    rw [← hri]
    exact validateStockItems_none_isSome st1.products cart.items hstock ci hci
  obtain ⟨ps', hdone⟩ := updateStockAll_done st1.products _ hitems
  have hvalid : validateOrder
      { id := oid, user := uid,
        orderItems := cart.items.map fun item =>
          OrderItem.mk item.product item.quantity item.size item.color item.price,
        shippingInfo := si,
        paymentInfo := ⟨req.paymentId, req.paymentStatus,
          if req.paymentMethod = "" then "card" else req.paymentMethod⟩,
        itemsPrice := cartTotal cart.items,
        taxPrice := cartTotal cart.items * (1 / 10),
        shippingPrice := 599 / 100,
        totalPrice := cartTotal cart.items + cartTotal cart.items * (1 / 10) + 599 / 100,
        orderStatus := "Processing", deliveredAt := none, cancelledAt := none,
        trackingNumber := req.trackingNumber,
        trackingStatus := if req.trackingStatus = "" then "label_created"
          else req.trackingStatus } = true := by
    unfold validateOrder
    simp only [Bool.and_eq_true, decide_eq_true_eq]
    exact ⟨by decide, htax⟩
  simp only [createOrder]
  rw [hship]
  try dsimp only
  rw [if_neg hsi, if_neg hpay, hcart]
  try dsimp only
  rw [if_neg hne, hstock]
  try dsimp only
  rw [if_pos hvalid]
  try dsimp only
  rw [hdone]
  refine ⟨?_, ⟨_, rfl⟩⟩
  simp [List.map_map, Function.comp]

/-- C2: when every product referenced by the (otherwise valid) request's
cart exists but some item's quantity exceeds its product's stock,
`createOrder` fails with a 400 error, no order is persisted and no stock
is decremented: the orders and products collections are exactly as
before the request. -/
theorem c2_insufficient_stock_aborts (st : St) (uid : Uid) (req : CreateOrderReq)
    (oid : Nat) (now : ℤ) (si : ShippingInfo) (st1 : St) (cart : Cart)
    (hship : resolveShipping st uid req = .ok (si, st1))
    (hsi : ¬(si.address = "" ∨ si.city = "" ∨ si.state = "" ∨ si.country = ""
      ∨ si.pinCode = "" ∨ si.phoneNo = ""))
    (hpay : ¬(req.paymentId = "" ∨ req.paymentStatus = ""))
    (hcart : findCart st1.carts uid = some cart)
    (hall : ∀ item ∈ cart.items, (findById st1.products item.product).isSome = true)
    (hover : ∃ item ∈ cart.items, ∃ p, findById st1.products item.product = some p
      ∧ p.stock < item.quantity) :
    ∃ e, (createOrder st uid req oid now).result = .error e ∧ e.statusCode = 400
    ∧ (createOrder st uid req oid now).st.orders = st.orders
    ∧ (createOrder st uid req oid now).st.products = st.products := by
  have hne : cart.items ≠ [] := by
    obtain ⟨item, hm, _⟩ := hover
    exact List.ne_nil_of_mem hm
  obtain ⟨e, he, he400⟩ := validateStockItems_overstock st1.products cart.items hall hover
  obtain ⟨hor, hpr, _⟩ := resolveShipping_ok_frame st uid req si st1 hship
  have hout : createOrder st uid req oid now
      = ⟨st1, [Event.cartRead], Except.error e⟩ := by
    simp only [createOrder]
    rw [hship]
    try dsimp only
    rw [if_neg hsi, if_neg hpay, hcart]
    try dsimp only
    rw [if_neg hne, he]
  rw [hout]
  exact ⟨e, rfl, he400, hor, hpr⟩

/-! Fixtures for the createOrder scenarios. -/

/-- A default saved address matching `siFix`. -/
def addrFix : Address :=
  ⟨0, "12 Oak St", "Kochi", "KL", "682001", "India", "9999999999", "home", "Home", true⟩

/-- The authenticated user of the scenarios. -/
def userFix : User := ⟨7, "Ann", "ann@example.com", "user", [addrFix]⟩

/-- A cart holding two tees (product 1, stock 5). -/
def cartFix : Cart := { items := [⟨0, 1, 2, "M", "blue", 10⟩], totalPrice := 20 }

/-- The database for the successful order creation. -/
def stFix : St :=
  { users := [userFix], carts := [(7, cartFix)], orders := [], products := psFix }

/-- A checkout request using the default address. -/
def reqFix : CreateOrderReq :=
  { paymentId := "pay_1", paymentStatus := "succeeded", paymentMethod := "",
    useSavedAddress := false, addressId := 0, newAddress := none,
    trackingNumber := "TN1", trackingStatus := "" }

/-- Witness for C1: on the concrete database the trace is exactly the six
steps in order and the request succeeds. -/
theorem c1_createOrder_step_order_witness :
    resolveShipping stFix 7 reqFix = .ok (siFix, stFix)
  ∧ (createOrder stFix 7 reqFix 1 0).trace
      = [Event.cartRead, Event.stockValidated, Event.orderPersisted,
          Event.stockDecremented 1, Event.cartCleared, Event.emailSent]
  ∧ ∃ o, (createOrder stFix 7 reqFix 1 0).result = .ok o := by
  have h := c1_createOrder_step_order stFix 7 reqFix 1 0 siFix stFix cartFix
    rfl (by decide) (by decide) rfl (by decide) rfl
    (by norm_num [cartTotal, cartFix, List.foldl])
  refine ⟨rfl, ?_, h.2⟩
  rw [h.1]
  rfl

/-- A cart asking for nine tees when only five are in stock. -/
def cartOver : Cart := { items := [⟨0, 1, 9, "M", "blue", 10⟩], totalPrice := 90 }

/-- The database for the insufficient-stock scenario. -/
def stOver : St :=
  { users := [userFix], carts := [(7, cartOver)], orders := [], products := psFix }

/-- Witness for C2: the concrete overstock request leaves orders and
product stocks untouched. -/
theorem c2_insufficient_stock_aborts_witness :
    (createOrder stOver 7 reqFix 1 0).st.orders = stOver.orders
  ∧ (createOrder stOver 7 reqFix 1 0).st.products = stOver.products := by
  obtain ⟨e, _, _, h3, h4⟩ := c2_insufficient_stock_aborts stOver 7 reqFix 1 0 siFix stOver
    cartOver rfl (by decide) (by decide) rfl (by decide)
    ⟨⟨0, 1, 9, "M", "blue", 10⟩, by decide, pTee, rfl, by decide⟩
  exact ⟨h3, h4⟩

/-! The no-rollback and race executions. -/

/-- A second product for the two-item order. -/
def pB : Product :=
  { name := "B", price := 12, size := ["M"], stock := 5,
    reviews := [], numOfReviews := 0, ratings := 0 }

/-- A cart over products 1 and 2. -/
def cartC3 : Cart :=
  { items := [⟨0, 1, 1, "M", "blue", 10⟩, ⟨1, 2, 1, "M", "red", 12⟩], totalPrice := 22 }

/-- The order `createOrder` persists for that cart. -/
def orderC3 : Order :=
  { id := 2, user := 7, orderItems := [⟨1, 1, "M", "blue", 10⟩, ⟨2, 1, "M", "red", 12⟩],
    shippingInfo := siFix, paymentInfo := payFix, itemsPrice := 22,
    taxPrice := 22 / 10, shippingPrice := 599 / 100,
    totalPrice := 22 + 22 / 10 + 599 / 100, orderStatus := "Processing",
    deliveredAt := none, cancelledAt := none, trackingNumber := "TN2",
    trackingStatus := "label_created" }

/-- The shared database before the interleaved execution. -/
def dbC3 : DbSt :=
  { products := [(1, pTee), (2, pB)], orders := [], carts := [(7, cartC3)],
    wishlists := [] }

/-- The schedule: `createOrder`'s writes, with a concurrent
`deleteProduct` of product 2 slipped in between the two decrements. -/
def schedC3 : List DbAction :=
  [.persistOrder orderC3, .decStock 1 1, .delProduct 2, .decStock 2 1, .resetCart 7]

/-- C3: order creation has no compensation or rollback path: in the
interleaved execution `schedC3` (which is exactly `createOrder`'s write
sequence for `orderC3` with a concurrent product deletion in between),
the stock validation passed, the second stock decrement throws, the run
aborts, and yet the persisted order remains, the cart is never cleared,
and the first decrement is not undone. -/
theorem c3_no_rollback_execution :
    validateStockItems dbC3.products cartC3.items = none
  ∧ schedC3.take 2 ++ schedC3.drop 3 = createOrderWriteActions 7 orderC3
  ∧ runAction (runActions dbC3 (schedC3.take 3)).1 (DbAction.decStock 2 1) = none
  ∧ (runActions dbC3 schedC3).2 = true
  ∧ orderC3 ∈ (runActions dbC3 schedC3).1.orders
  ∧ findCart (runActions dbC3 schedC3).1.carts 7 = some cartC3
  ∧ findById (runActions dbC3 schedC3).1.products 1 = some { pTee with stock := 4 } := by
  refine ⟨rfl, rfl, rfl, rfl, ?_, rfl, rfl⟩
  exact List.Mem.head _

/-- A product with a single unit left. -/
def pRace : Product :=
  { name := "Race", price := 10, size := ["M"], stock := 1,
    reviews := [], numOfReviews := 0, ratings := 0 }

/-- The catalogue of the race scenario. -/
def psRace : Products := [(3, pRace)]

/-- First buyer's cart for the last unit. -/
def cartR1 : Cart := { items := [⟨0, 3, 1, "M", "blue", 10⟩], totalPrice := 10 }

/-- Second buyer's cart for the same last unit. -/
def cartR2 : Cart := { items := [⟨0, 3, 1, "M", "red", 10⟩], totalPrice := 10 }

/-- Stock state after the first decrement. -/
def psRace1 : Products :=
  match updateStock psRace 3 1 with
  | some ps => ps
  | none => []

/-- Stock state after the second decrement. -/
def psRace2 : Products :=
  match updateStock psRace1 3 1 with
  | some ps => ps
  | none => []

/-- C7: there is no concurrency control around stock decrements: both
order creations pass the stock-validation loop against the same initial
one-unit stock, both decrements then go through unconditionally, and the
stored stock ends at -1. -/
theorem c7_stock_decrement_race :
    validateStockItems psRace cartR1.items = none
  ∧ validateStockItems psRace cartR2.items = none
  ∧ updateStock psRace 3 1 = some psRace1
  ∧ updateStock psRace1 3 1 = some psRace2
  ∧ findById psRace2 3 = some { pRace with stock := -1 }
  ∧ ({ pRace with stock := -1 } : Product).stock < 0 := by
  refine ⟨rfl, rfl, rfl, rfl, by decide, by decide⟩

/-! Product comparison validation. -/

/-- No invalid entry survives the filter exactly when all entries are
valid. -/
theorem filterNotValid_len_zero_iff (ids : List String) :
    ((ids.filter fun id => ¬ isValidObjectId id).length = 0)
      ↔ ids.all isValidObjectId = true := by
  rw [List.length_eq_zero, List.filter_eq_nil_iff, List.all_eq_true]
  constructor
  · intro h x hx
    have := h x hx
    simpa using this
  · intro h x hx
    simp [h x hx]

/-- C10: `compareProducts` answers 400 (and sends no ids to the product
query) exactly when `productIds` is missing, not an array, shorter than
2, longer than 5, or contains an invalid ObjectId; only a well-formed
request reaches the query and the comparison. -/
theorem c10_compareProducts_validation (body : ReqVal) (ps : List (String × Product)) :
    isErr400 (compareProducts body ps).result = !validCompareBody body
  ∧ (validCompareBody body = false → (compareProducts body ps).queried = []) := by
  cases body with
  | missing => exact ⟨rfl, fun _ => rfl⟩
  | nonArray => exact ⟨rfl, fun _ => rfl⟩
  | arr ids =>
    simp only [compareProducts, validCompareBody]
    by_cases h2 : ids.length < 2
    · have hd2 : decide (2 ≤ ids.length) = false := decide_eq_false (by omega)
      rw [if_pos h2]
      exact ⟨by simp [hd2, isErr400], fun _ => rfl⟩
    · by_cases h5 : 5 < ids.length
      · have hd5 : decide (ids.length ≤ 5) = false := decide_eq_false (by omega)
        rw [if_neg h2, if_pos h5]
        exact ⟨by simp [hd5, isErr400], fun _ => rfl⟩
      · have hd2 : decide (2 ≤ ids.length) = true := decide_eq_true (by omega)
        have hd5 : decide (ids.length ≤ 5) = true := decide_eq_true (by omega)
        rw [if_neg h2, if_neg h5]
        by_cases hall : ids.all isValidObjectId = true
        · have hf : (ids.filter fun id => ¬ isValidObjectId id).length = 0 :=
            (filterNotValid_len_zero_iff ids).mpr hall
          have hnot : ¬ 0 < (ids.filter fun id => ¬ isValidObjectId id).length := by
            omega
          rw [if_neg hnot]
          constructor
          · have hv : (decide (2 ≤ ids.length) && decide (ids.length ≤ 5)
                && ids.all isValidObjectId) = true := by
              rw [hd2, hd5, hall]
              rfl
            rw [hv]
            try dsimp only
            split <;> rfl
          · intro hvfalse
            rw [hd2, hd5, hall] at hvfalse
            exact Bool.noConfusion hvfalse
        · have hfne : (ids.filter fun id => ¬ isValidObjectId id).length ≠ 0 :=
            fun hc => hall ((filterNotValid_len_zero_iff ids).mp hc)
          rw [if_pos (Nat.pos_of_ne_zero hfne)]
          refine ⟨?_, fun _ => rfl⟩
          have hallf : ids.all isValidObjectId = false :=
            Bool.eq_false_iff.mpr hall
          rw [hd2, hd5, hallf]
          rfl

/-- Witness for C10: a one-element array is rejected and nothing is
queried. -/
theorem c10_compareProducts_validation_witness :
    validCompareBody (ReqVal.arr ["x"]) = false
  ∧ (compareProducts (ReqVal.arr ["x"]) []).queried = [] :=
  ⟨by decide, (c10_compareProducts_validation (ReqVal.arr ["x"]) []).2 (by decide)⟩

end DressUp
